import Mathlib

/-!
A verification development for the reviewed-preprints HTTP façade
(`src/app.ts`, `src/utils/content-to-html.ts`): a shallow embedding of its
pure data transformations (rich-text rendering, author-line summarization,
subject mapping, date normalization, record-to-snippet transformation),
of its query-parameter validation pipeline and response writer, and of the
query-string construction and total-count logic of the upstream client.

JavaScript numbers are modelled as `JSNum`: NaN, the two infinities, or a
finite rational value.  Idealization: a finite JavaScript number is an
IEEE-754 double; here it is the exact rational denoted by the source text.
The two agree on every observation made by this development (integrality,
sign, comparison against 0 and 100) for all inputs of realistic magnitude.
-/

/-- A JavaScript number: NaN, +Infinity, -Infinity, or a finite value. -/
inductive JSNum where
  | nan : JSNum
  | posInf : JSNum
  | negInf : JSNum
  | fin : ℚ → JSNum
deriving DecidableEq, Repr

/-- The whitespace characters stripped by JavaScript string-to-number
coercion and by `parseInt` (space, tab, line feed, carriage return,
vertical tab, form feed, no-break space). -/
def jsWhitespace (c : Char) : Bool :=
  c == ' ' || c == '\t' || c == '\n' || c == '\r' ||
  c == Char.ofNat 11 || c == Char.ofNat 12 || c == Char.ofNat 160

/-- Strip leading and trailing JavaScript whitespace. -/
def jsTrim (s : String) : List Char :=
  ((s.toList.dropWhile jsWhitespace).reverse.dropWhile jsWhitespace).reverse

/-- Value of a list of decimal digit characters (most significant first). -/
def decDigitsVal (l : List Char) : Nat :=
  l.foldl (fun acc c => acc * 10 + (c.toNat - 48)) 0

/-- Value of one hexadecimal digit character. -/
def hexDigitVal (c : Char) : Nat :=
  if c.isDigit then c.toNat - 48
  else if 'a' ≤ c && c ≤ 'f' then c.toNat - 87
  else c.toNat - 55

def isHexDigitChar (c : Char) : Bool :=
  c.isDigit || ('a' ≤ c && c ≤ 'f') || ('A' ≤ c && c ≤ 'F')

/-- Value of a digit string in the given radix. -/
def radixDigitsVal (radix : Nat) (l : List Char) : Nat :=
  l.foldl (fun acc c => acc * radix + hexDigitVal c) 0

/-- Parse the mantissa of a JavaScript decimal numeric literal:
`digits`, `digits.digits?`, or `.digits`; returns its value as an
integer numerator over a power-of-ten denominator, together with the
unconsumed rest, or `none` when no digit is present.  (The value of
`ip.fp` is `(ip·10^|fp| + fp) / 10^|fp|`.) -/
def parseDecMantissa (l : List Char) : Option (Int × Nat × List Char) :=
  let ip := l.takeWhile Char.isDigit
  let r1 := l.dropWhile Char.isDigit
  match r1 with
  | '.' :: r2 =>
    let fp := r2.takeWhile Char.isDigit
    let r3 := r2.dropWhile Char.isDigit
    if ip.isEmpty && fp.isEmpty then none
    else some (((decDigitsVal ip * 10 ^ fp.length + decDigitsVal fp : Nat) : Int),
      10 ^ fp.length, r3)
  | _ => if ip.isEmpty then none else some ((decDigitsVal ip : Int), 1, r1)

/-- Parse the optional exponent part of a JavaScript decimal literal.
`none` means the remaining characters make the literal invalid (NaN). -/
def parseExponentPart : List Char → Option Int
  | [] => some 0
  | c :: r =>
    if c == 'e' || c == 'E' then
      match r with
      | '+' :: d => if !d.isEmpty && d.all Char.isDigit then some (decDigitsVal d : Int) else none
      | '-' :: d => if !d.isEmpty && d.all Char.isDigit then some (-(decDigitsVal d : Int)) else none
      | d => if !d.isEmpty && d.all Char.isDigit then some (decDigitsVal d : Int) else none
    else none

/-- JavaScript string-to-number coercion of a (trimmed, signed) decimal
literal, including the `Infinity` forms. -/
def decimalLiteralToNumber (l : List Char) : JSNum :=
  let neg : Bool := match l with
    | '-' :: _ => true
    | _ => false
  let l2 : List Char := match l with
    | '+' :: r => r
    | '-' :: r => r
    | r => r
  if l2 == "Infinity".toList then (if neg then JSNum.negInf else JSNum.posInf)
  else
    match parseDecMantissa l2 with
    | none => JSNum.nan
    | some (num, den, rest) =>
      match parseExponentPart rest with
      | none => JSNum.nan
      | some e =>
        JSNum.fin (Rat.divInt ((if neg then (-1 : Int) else 1) * num * (10 : Int) ^ e.toNat)
          ((den : Int) * (10 : Int) ^ (-e).toNat))

/-- JavaScript `Number(s)` for a string `s` (the coercion applied by the
handler to query-parameter values): trims whitespace, maps the empty
string to 0, accepts `0x`/`0b`/`0o` integer literals and signed decimal
literals with optional fraction and exponent, and `Infinity`; everything
else is NaN. -/
def jsStringToNumber (s : String) : JSNum :=
  let l := jsTrim s
  if l.isEmpty then JSNum.fin 0
  else
    match l with
    | '0' :: c :: r =>
      if c == 'x' || c == 'X' then
        (if !r.isEmpty && r.all isHexDigitChar then JSNum.fin (radixDigitsVal 16 r : ℚ)
         else JSNum.nan)
      else if c == 'b' || c == 'B' then
        (if !r.isEmpty && r.all (fun d => d == '0' || d == '1') then
          JSNum.fin (radixDigitsVal 2 r : ℚ)
         else JSNum.nan)
      else if c == 'o' || c == 'O' then
        (if !r.isEmpty && r.all (fun d => '0' ≤ d && d ≤ '7') then
          JSNum.fin (radixDigitsVal 8 r : ℚ)
         else JSNum.nan)
      else decimalLiteralToNumber l
    | _ => decimalLiteralToNumber l

/-- JavaScript `parseInt(s, 10)`: skip leading whitespace, optional sign,
then the maximal run of leading decimal digits (trailing characters are
ignored); NaN when that run is empty. -/
def jsParseInt (s : String) : JSNum :=
  let l := s.toList.dropWhile jsWhitespace
  let signNeg : Bool := match l with
    | '-' :: _ => true
    | _ => false
  let l2 : List Char := match l with
    | '+' :: r => r
    | '-' :: r => r
    | r => r
  let ds := l2.takeWhile Char.isDigit
  if ds.isEmpty then JSNum.nan
  else JSNum.fin (((if signNeg then (-1 : Int) else 1) * (decDigitsVal ds : Int) : Int) : ℚ)

/-- The test `n.toString() === parseInt(n.toString(), 10).toString()`
applied by the handler to `page` and `per-page` (src/app.ts line 251),
evaluated on the number model.  For NaN both sides are the string `NaN`,
so the test passes.  For the infinities `parseInt` yields NaN, so it
fails.  A finite double passes exactly when it is integer-valued and its
magnitude is below 10^21, the threshold under which `toString` uses plain
decimal notation that `parseInt` reads back in full (for an integer
rational that magnitude bound is a bound on the numerator). -/
def numberRoundTripsAsInt : JSNum → Bool
  | JSNum.nan => true
  | JSNum.posInf => false
  | JSNum.negInf => false
  | JSNum.fin q => q.den == 1 && decide (q.num.natAbs < 10 ^ 21)

/-- The `.map` lambda of src/app.ts lines 248-252: keep the number when
the integer round-trip test passes, else replace it with -1. -/
def intCheckedParam (v : JSNum) : JSNum :=
  if numberRoundTripsAsInt v then v else JSNum.fin (-1)

/-- JavaScript `n <= 0` (false for NaN). -/
def jsLeZero : JSNum → Bool
  | JSNum.nan => false
  | JSNum.posInf => false
  | JSNum.negInf => true
  | JSNum.fin q => decide (q ≤ 0)

/-- JavaScript `n > 100` (false for NaN). -/
def jsGtHundred : JSNum → Bool
  | JSNum.nan => false
  | JSNum.posInf => true
  | JSNum.negInf => false
  | JSNum.fin q => decide (100 < q)

/-! ## Rich-text model and renderer (src/utils/content-to-html.ts) -/

/-- The rich-text `Content` union: absent (`undefined`), a plain text
leaf, an ordered sequence of nodes, or a tagged node `{type, content}`.
The renderer reads only the `type` and `content` fields of a tagged
node, so only those are modelled. -/
inductive Content where
  | undef : Content
  | text : String → Content
  | seq : List Content → Content
  | node : String → Content → Content

mutual

/-- `contentToHtml` of src/utils/content-to-html.ts. -/
def contentToHtml : Content → String
  | Content.undef => ""
  | Content.text s => s
  | Content.seq parts => contentListToHtml parts
  | Content.node typ c =>
    if typ == "Paragraph" then "<p>" ++ contentToHtml c ++ "</p>"
    else if typ == "Emphasis" then "<em>" ++ contentToHtml c ++ "</em>"
    else if typ == "Strong" then "<strong>" ++ contentToHtml c ++ "</strong>"
    else if typ == "NontextualAnnotation" then "<u>" ++ contentToHtml c ++ "</u>"
    else if typ == "Superscript" then "<sup>" ++ contentToHtml c ++ "</sup>"
    else if typ == "Subscript" then "<sub>" ++ contentToHtml c ++ "</sub>"
    else ""

/-- `content.map((part) => contentToHtml(part)).join('')` on a sequence. -/
def contentListToHtml : List Content → String
  | [] => ""
  | c :: rest => contentToHtml c ++ contentListToHtml rest

end

/-! ## Authors (src/app.ts lines 149-176) -/

/-- The `Author` record as used by the summarizer: optional given-name
and family-name sequences. -/
structure Author where
  givenNames : Option (List String)
  familyNames : Option (List String)
deriving DecidableEq, Inhabited

/-- `prepareAuthor` of src/app.ts lines 149-154. -/
def prepareAuthor (author : Author) : String :=
  let givenNames := String.intercalate " " (author.givenNames.getD [])
  let familyNames := String.intercalate " " (author.familyNames.getD [])
  givenNames ++ (if familyNames != "" then " " else "") ++ familyNames

/-- `prepareAuthorLine` of src/app.ts lines 156-176: pushes the display
forms of the first, second, and last authors (under the corresponding
length guards), then joins the first two with a comma and appends the
third element (when present) with an ellipsis conjunction for more than
three authors and a comma otherwise. -/
def prepareAuthorLine (authors : List Author) : Option String :=
  if authors.length = 0 then none
  else
    let authorLine : List String :=
      (if authors.length > 0 then [prepareAuthor authors[0]!] else []) ++
      (if authors.length > 1 then [prepareAuthor authors[1]!] else []) ++
      (if authors.length > 2 then [prepareAuthor authors[authors.length - 1]!] else [])
    let firstTwo := String.intercalate ", " (authorLine.take 2)
    let extra : Option String := if authorLine.length > 2 then some authorLine[2]! else none
    some (String.intercalate (if authors.length > 3 then " ... " else ", ")
      ([some firstTwo, extra].filterMap id))

/-! ## Subjects (src/app.ts lines 178-207) -/

/-- An outbound subject: slug id (absent for a name outside the table)
and the original name. -/
structure Subject where
  id : Option String
  name : String
deriving DecidableEq, Repr

/-- The static `msaNames` name-to-slug table of src/app.ts lines 183-202. -/
def msaNames : List (String × String) :=
  [("Biochemistry and Chemical Biology", "biochemistry-chemical-biology"),
   ("Cancer Biology", "cancer-biology"),
   ("Cell Biology", "cell-biology"),
   ("Chromosomes and Gene Expression", "chromosomes-gene-expression"),
   ("Computational and Systems Biology", "computational-systems-biology"),
   ("Developmental Biology", "developmental-biology"),
   ("Ecology", "ecology"),
   ("Epidemiology and Global Health", "epidemiology-global-health"),
   ("Evolutionary Biology", "evolutionary-biology"),
   ("Genetics and Genomics", "genetics-genomics"),
   ("Immunology and Inflammation", "immunology-inflammation"),
   ("Medicine", "medicine"),
   ("Microbiology and Infectious Disease", "microbiology-infectious-disease"),
   ("Neuroscience", "neuroscience"),
   ("Physics of Living Systems", "physics-living-systems"),
   ("Plant Biology", "plant-biology"),
   ("Stem Cells and Regenerative Medicine", "stem-cells-regenerative-medicine"),
   ("Structural Biology and Molecular Biophysics", "structural-biology-molecular-biophysics")]

/-- `getSubjects` of src/app.ts lines 204-207. -/
def getSubjects (subjectNames : List String) : List Subject :=
  subjectNames.map (fun subjectName => { id := msaNames.lookup subjectName, name := subjectName })

/-! ## Date normalization (src/app.ts lines 209-217) -/

/-- A JavaScript `Date`, modelled through the UTC component getters the
code reads (`getUTCFullYear`, `getUTCMonth` 0-based, `getUTCDate`,
`getUTCHours`, `getUTCMinutes`, `getUTCSeconds`, and the sub-second
part, which the normalizer never reads). -/
structure JSDate where
  utcFullYear : Int
  utcMonth : Nat
  utcDate : Nat
  utcHours : Nat
  utcMinutes : Nat
  utcSeconds : Nat
  utcMilliseconds : Nat
deriving DecidableEq, Inhabited, Repr

/-- JavaScript `String.prototype.padStart`. -/
def padStart (s : String) (targetLength : Nat) (padChar : Char) : String :=
  if targetLength ≤ s.length then s
  else String.mk (List.replicate (targetLength - s.length) padChar) ++ s

/-- `toIsoStringWithoutMilliseconds` of src/app.ts lines 209-217.  The
year is interpolated as-is; month (1-based), day, hours, minutes and
seconds are padded to two characters with `0`. -/
def toIsoStringWithoutMilliseconds (date : JSDate) : String :=
  let year := Int.repr date.utcFullYear
  let month := padStart (Nat.repr (date.utcMonth + 1)) 2 '0'
  let day := padStart (Nat.repr date.utcDate) 2 '0'
  let hours := padStart (Nat.repr date.utcHours) 2 '0'
  let minutes := padStart (Nat.repr date.utcMinutes) 2 '0'
  let seconds := padStart (Nat.repr date.utcSeconds) 2 '0'
  year ++ "-" ++ month ++ "-" ++ day ++ "T" ++ hours ++ ":" ++ minutes ++ ":" ++ seconds ++ "Z"

/-! ## Record-to-snippet transformation (src/app.ts lines 219-240) -/

/-- The nested `article` block, restricted to the fields the snippet
transformation reads. -/
structure ProcessedArticle where
  title : Content
  authors : Option (List Author)

/-- An upstream enhanced-article record without content, restricted to
the fields the snippet transformation destructures. -/
structure EnhancedArticleNoContent where
  msid : String
  preprintDoi : String
  pdfUrl : Option String
  article : ProcessedArticle
  published : Option JSDate
  subjects : Option (List String)
  firstPublished : JSDate

/-- The outbound `ReviewedPreprintSnippet`. -/
structure ReviewedPreprintSnippet where
  id : String
  doi : String
  pdf : Option String
  status : String
  authorLine : Option String
  title : String
  published : String
  reviewedDate : String
  versionDate : String
  statusDate : String
  stage : String
  subjects : List Subject
deriving DecidableEq

/-- The epoch date `new Date(0)`: what `new Date(published!)` yields at
runtime when the nullable `published` field is actually null. -/
def epochJSDate : JSDate :=
  { utcFullYear := 1970, utcMonth := 0, utcDate := 1,
    utcHours := 0, utcMinutes := 0, utcSeconds := 0, utcMilliseconds := 0 }

/-- `enhancedArticleNoContentToSnippet` of src/app.ts lines 219-240. -/
def enhancedArticleNoContentToSnippet (r : EnhancedArticleNoContent) : ReviewedPreprintSnippet :=
  { id := r.msid
    doi := r.preprintDoi
    pdf := r.pdfUrl
    status := "reviewed"
    authorLine := prepareAuthorLine (r.article.authors.getD [])
    title := contentToHtml r.article.title
    published := toIsoStringWithoutMilliseconds r.firstPublished
    reviewedDate := toIsoStringWithoutMilliseconds r.firstPublished
    versionDate := toIsoStringWithoutMilliseconds (r.published.getD epochJSDate)
    statusDate := toIsoStringWithoutMilliseconds (r.published.getD epochJSDate)
    stage := "published"
    subjects := getSubjects (r.subjects.getD []) }

/-! ## Response writer and list endpoint (src/app.ts lines 88-116, 242-291) -/

/-- An outbound message body: a problem document or a list response. -/
inductive ResponseMessage where
  | problem : String → Option String → ResponseMessage
  | list : JSNum → List ReviewedPreprintSnippet → ResponseMessage
deriving DecidableEq

/-- The observable state of an Express response: whether headers have
been sent, and the status, headers and JSON body written. -/
structure Res where
  headersSent : Bool
  statusCode : Nat
  contentType : String
  cacheControl : String
  vary : List String
  body : Option ResponseMessage
deriving DecidableEq

/-- A fresh response on which nothing has been written. -/
def initialRes : Res :=
  { headersSent := false, statusCode := 200, contentType := "",
    cacheControl := "", vary := [], body := none }

def cacheControlFor (statusCode : Nat) : String :=
  if statusCode = 200 then "max-age=300, public, stale-if-error=86400, stale-while-revalidate=300"
  else "must-revalidate, no-cache, private"

/-- `writeResponse` of src/app.ts lines 88-99: a no-op once headers have
been sent; otherwise sets the status code, content type, cache-control
and vary headers, and the JSON body (after which headers count as
sent). -/
def writeResponse (res : Res) (contentType : String) (statusCode : Nat)
    (message : ResponseMessage) : Res :=
  if res.headersSent then res
  else
    { headersSent := true
      statusCode := statusCode
      contentType := contentType
      cacheControl := cacheControlFor statusCode
      vary := ["Accept", "Authorization"]
      body := some message }

/-- `errorBadRequest` of src/app.ts lines 101-106. -/
def errorBadRequest (res : Res) (message : String) : Res :=
  writeResponse res "application/problem+json" 400
    (ResponseMessage.problem "bad request" (some message))

/-- `errorNotFoundRequest` of src/app.ts lines 108-112, the whole body of
the item endpoint (lines 293-295). -/
def errorNotFoundRequest (res : Res) : Res :=
  writeResponse res "application/json" 404 (ResponseMessage.problem "not found" none)

/-- The query parameters of a list request; `none` is an absent
parameter, `some s` a present one with string value `s`. -/
structure ListQuery where
  page : Option String := none
  perPage : Option String := none
  order : Option String := none
  useDate : Option String := none
  startDate : Option String := none
  endDate : Option String := none

/-- `Number(queryParam(req, 'page', 1))` fed through the integer
round-trip check (src/app.ts lines 245-252). -/
def pageNumber (q : ListQuery) : JSNum :=
  intCheckedParam (match q.page with
    | none => JSNum.fin 1
    | some s => jsStringToNumber s)

/-- `Number(queryParam(req, 'per-page', 20))` fed through the integer
round-trip check. -/
def perPageNumber (q : ListQuery) : JSNum :=
  intCheckedParam (match q.perPage with
    | none => JSNum.fin 20
    | some s => jsStringToNumber s)

/-- `(queryParam(req, 'order') || 'desc').toString()`: absent or empty
falls back to the default. -/
def orderParam (q : ListQuery) : String :=
  match q.order with
  | none => "desc"
  | some s => if s = "" then "desc" else s

/-- `(queryParam(req, 'use-date') || 'default').toString()`. -/
def useDateParam (q : ListQuery) : String :=
  match q.useDate with
  | none => "default"
  | some s => if s = "" then "default" else s

/-- `(queryParam(req, 'start-date') || '').toString()`. -/
def startDateParam (q : ListQuery) : String :=
  match q.startDate with
  | none => ""
  | some s => s

/-- `(queryParam(req, 'end-date') || '').toString()`. -/
def endDateParam (q : ListQuery) : String :=
  match q.endDate with
  | none => ""
  | some s => s

def isLeapYear (y : Int) : Bool :=
  (y % 4 == 0 && y % 100 != 0) || y % 400 == 0

def daysInMonth (y : Int) (m : Nat) : Nat :=
  if m = 2 then (if isLeapYear y then 29 else 28)
  else if m = 4 || m = 6 || m = 9 || m = 11 then 30
  else 31

/-- `moment(s, 'YYYY-MM-DD', true).isValid()`: strict four-digit year,
two-digit month and day with single dashes, and a real calendar date. -/
def momentValidYMD (s : String) : Bool :=
  match s.toList with
  | [y1, y2, y3, y4, c1, m1, m2, c2, d1, d2] =>
    if (c1 == '-' && c2 == '-') &&
       [y1, y2, y3, y4, m1, m2, d1, d2].all Char.isDigit then
      let y : Int := (decDigitsVal [y1, y2, y3, y4] : Int)
      let m := decDigitsVal [m1, m2]
      let d := decDigitsVal [d1, d2]
      decide (1 ≤ m) && decide (m ≤ 12) && decide (1 ≤ d) && decide (d ≤ daysInMonth y m)
    else false
  | _ => false

/-- The exact validation messages of src/app.ts lines 259-281. -/
def pageErrorMessage : String :=
  "expecting positive integer for \x27page\x27 parameter"

def perPageErrorMessage : String :=
  "expecting positive integer between 1 and 100 for \x27per-page\x27 parameter"

def orderErrorMessage : String :=
  "expecting either \x27asc\x27 or \x27desc\x27 for \x27order\x27 parameter"

def useDateErrorMessage : String :=
  "expecting either \x27default\x27 or \x27published\x27 for \x27use-date\x27 parameter"

def startDateErrorMessage : String :=
  "expecting YYYY-MM-DD format for \x27start-date\x27 parameter"

def endDateErrorMessage : String :=
  "expecting YYYY-MM-DD format for \x27end-date\x27 parameter"

/-- The list-endpoint handler `app.get('/')` of src/app.ts lines
244-291, with the awaited upstream fetch result supplied as arguments
(`upstreamTotal`, `upstreamItems`).  All six validation checks are
evaluated in order with no early return; each failing check calls
`errorBadRequest`, and the handler ends with the 200 list write. -/
def listEndpoint (q : ListQuery) (upstreamTotal : JSNum)
    (upstreamItems : List EnhancedArticleNoContent) (res : Res) : Res :=
  let page := pageNumber q
  let perPage := perPageNumber q
  let order := orderParam q
  let useDate := useDateParam q
  let startDate := startDateParam q
  let endDate := endDateParam q
  let res := if jsLeZero page then errorBadRequest res pageErrorMessage else res
  let res := if jsLeZero perPage || jsGtHundred perPage then
      errorBadRequest res perPageErrorMessage else res
  let res := if !(order == "asc" || order == "desc") then
      errorBadRequest res orderErrorMessage else res
  let res := if !(useDate == "default" || useDate == "published") then
      errorBadRequest res useDateErrorMessage else res
  let res := if startDate != "" && !momentValidYMD startDate then
      errorBadRequest res startDateErrorMessage else res
  let res := if endDate != "" && !momentValidYMD endDate then
      errorBadRequest res endDateErrorMessage else res
  writeResponse res "application/vnd.elife.reviewed-preprint-list+json; version=1" 200
    (ResponseMessage.list upstreamTotal (upstreamItems.map enhancedArticleNoContentToSnippet))

/-- The message of the first failing validation check, in the source's
fixed order (page, per-page, order, use-date, start-date, end-date), or
`none` when every check passes. -/
def firstValidationError (q : ListQuery) : Option String :=
  if jsLeZero (pageNumber q) then some pageErrorMessage
  else if jsLeZero (perPageNumber q) || jsGtHundred (perPageNumber q) then some perPageErrorMessage
  else if !(orderParam q == "asc" || orderParam q == "desc") then some orderErrorMessage
  else if !(useDateParam q == "default" || useDateParam q == "published") then some useDateErrorMessage
  else if startDateParam q != "" && !momentValidYMD (startDateParam q) then some startDateErrorMessage
  else if endDateParam q != "" && !momentValidYMD (endDateParam q) then some endDateErrorMessage
  else none

/-! ## Upstream client (src/app.ts lines 118-147) -/

/-- A calendar date in UTC (year, 1-based month, day of month). -/
structure CivilDate where
  year : Int
  month : Nat
  day : Nat
deriving DecidableEq, Repr

/-- JavaScript `Date.prototype.setDate` day-of-month normalization: a
day past the end of the month rolls over into the following month (the
day argument here is at most 32, so one roll-over step suffices). -/
def setDateNormalize (y : Int) (m : Nat) (d : Nat) : CivilDate :=
  let dim := daysInMonth y m
  if d ≤ dim then { year := y, month := m, day := d }
  else if m = 12 then { year := y + 1, month := 1, day := d - dim }
  else { year := y, month := m + 1, day := d - dim }

/-- `new Date(endDate).getUTCDate()` for an `endDate` already validated
against the strict `YYYY-MM-DD` format: the two-digit day component. -/
def parseDayOfMonth (endDate : String) : Nat :=
  decDigitsVal ((endDate.toList.drop 8).take 2)

/-- Four-digit/two-digit date fields of `Date.prototype.toISOString`. -/
def formatCivilDate (c : CivilDate) : String :=
  padStart (Int.repr c.year) 4 '0' ++ "-" ++
  padStart (Nat.repr c.month) 2 '0' ++ "-" ++
  padStart (Nat.repr c.day) 2 '0'

/-- The `end-date` value placed in the upstream query string by
`fetchVersionsNoContent` (src/app.ts line 127):
`new Date(new Date().setDate(new Date(endDate).getUTCDate() + 1)).toISOString().split('T')[0]`.
`now` is the server's current date; the container runs in the UTC
timezone, so the local-time `setDate` and the UTC `toISOString` agree.
The base of the computation is the CURRENT date `new Date()`, whose
day-of-month is overwritten with the parameter's day plus one; the
parameter's year and month are never read. -/
def endDateUpstreamValue (now : CivilDate) (endDate : String) : String :=
  formatCivilDate (setDateNormalize now.year now.month (parseDayOfMonth endDate + 1))

/-- The `total` computed by `fetchVersionsNoContent` (src/app.ts lines
138-140): `parseInt` of the `x-total-count` header when that header is
present and non-empty (a truthy string), else the number of items in the
response body. -/
def fetchVersionsNoContentTotal (xTotalCount : Option String)
    (items : List EnhancedArticleNoContent) : JSNum :=
  match xTotalCount with
  | some h => if h ≠ "" then jsParseInt h else JSNum.fin (items.length : ℚ)
  | none => JSNum.fin (items.length : ℚ)

/-! ## Theorems -/

/-- Helper: the sequence renderer is the separator-free concatenation of
the element renders, in order. -/
theorem contentListToHtml_eq_join (parts : List Content) :
    contentListToHtml parts = String.join (parts.map contentToHtml) := by
  induction parts with
  | nil => rfl
  | cons c rest ih =>
    show contentToHtml c ++ contentListToHtml rest = _
    rw [ih]
    apply String.ext
    simp [String.join_eq]

/-- Claim C1: the author-line summarizer returns `undefined` on an empty
list, the single display form for one author, the two display forms
joined by a comma for two authors, all three display forms joined by
commas for exactly three authors, and for four or more authors the first
two display forms joined by a comma followed by an ellipsis conjunction
and the display form of the LAST author (all middle authors, the third
included, are skipped). -/
theorem prepareAuthorLine_selection :
    prepareAuthorLine [] = none ∧
    (∀ a : Author, prepareAuthorLine [a] = some (prepareAuthor a)) ∧
    (∀ a b : Author,
      prepareAuthorLine [a, b] = some (prepareAuthor a ++ ", " ++ prepareAuthor b)) ∧
    (∀ a b c : Author,
      prepareAuthorLine [a, b, c] =
        some (prepareAuthor a ++ ", " ++ prepareAuthor b ++ ", " ++ prepareAuthor c)) ∧
    (∀ l : List Author, 4 ≤ l.length →
      prepareAuthorLine l =
        some (prepareAuthor l[0]! ++ ", " ++ prepareAuthor l[1]! ++ " ... " ++
          prepareAuthor l[l.length - 1]!)) := by
  refine ⟨rfl, fun a => rfl, fun a b => rfl, fun a b c => rfl, fun l h => ?_⟩
  have h0 : ¬ (l.length = 0) := by omega
  have h1 : l.length > 0 := by omega
  have h2 : l.length > 1 := by omega
  have h3 : l.length > 2 := by omega
  have h4 : l.length > 3 := by omega
  simp only [prepareAuthorLine, if_neg h0, if_pos h1, if_pos h2, if_pos h3, if_pos h4]
  simp [String.intercalate, String.intercalate.go]

/-- Witness for C1: a concrete four-author list summarizes to
`A, B ... D`, the last author landing after the ellipsis. -/
theorem prepareAuthorLine_selection_witness :
    prepareAuthorLine
      [{ givenNames := some ["A"], familyNames := none },
       { givenNames := some ["B"], familyNames := none },
       { givenNames := some ["C"], familyNames := none },
       { givenNames := some ["D"], familyNames := none }] = some "A, B ... D" := by
  rw [prepareAuthorLine_selection.2.2.2.2 _ (by decide)]
  rfl

/-- Claim C2: the rich-text renderer returns the empty string on absent
input, a plain string unchanged, the in-order separator-free
concatenation of element renders for a sequence, the render of the
content wrapped in the variant's tag for the six known variants, and the
empty string for any other variant (it is total, so it never raises). -/
theorem contentToHtml_rendering :
    contentToHtml Content.undef = "" ∧
    (∀ s : String, contentToHtml (Content.text s) = s) ∧
    (∀ parts : List Content,
      contentToHtml (Content.seq parts) = String.join (parts.map contentToHtml)) ∧
    (∀ c : Content,
      contentToHtml (Content.node "Paragraph" c) = "<p>" ++ contentToHtml c ++ "</p>") ∧
    (∀ c : Content,
      contentToHtml (Content.node "Emphasis" c) = "<em>" ++ contentToHtml c ++ "</em>") ∧
    (∀ c : Content,
      contentToHtml (Content.node "Strong" c) = "<strong>" ++ contentToHtml c ++ "</strong>") ∧
    (∀ c : Content,
      contentToHtml (Content.node "NontextualAnnotation" c) = "<u>" ++ contentToHtml c ++ "</u>") ∧
    (∀ c : Content,
      contentToHtml (Content.node "Superscript" c) = "<sup>" ++ contentToHtml c ++ "</sup>") ∧
    (∀ c : Content,
      contentToHtml (Content.node "Subscript" c) = "<sub>" ++ contentToHtml c ++ "</sub>") ∧
    (∀ (typ : String) (c : Content),
      typ ∉ (["Paragraph", "Emphasis", "Strong", "NontextualAnnotation",
        "Superscript", "Subscript"] : List String) →
      contentToHtml (Content.node typ c) = "") := by
  refine ⟨rfl, fun s => rfl, fun parts => contentListToHtml_eq_join parts,
    fun c => rfl, fun c => rfl, fun c => rfl, fun c => rfl, fun c => rfl, fun c => rfl,
    fun typ c h => ?_⟩
  simp only [List.mem_cons, List.not_mem_nil, or_false, not_or] at h
  obtain ⟨n1, n2, n3, n4, n5, n6⟩ := h
  simp [contentToHtml, n1, n2, n3, n4, n5, n6]

/-- Witness for C2: a node with an unrecognized variant renders as the
empty string without an error. -/
theorem contentToHtml_rendering_witness :
    contentToHtml (Content.node "Heading" (Content.text "x")) = "" :=
  contentToHtml_rendering.2.2.2.2.2.2.2.2.2 "Heading" (Content.text "x") (by decide)

/-- Claim C10: the author-line summarizer reads only the first, second
and last authors; two lists of equal length agreeing at index 0, index 1
and the last index summarize identically however their other entries
differ. -/
theorem prepareAuthorLine_depends_only_on_ends
    (l1 l2 : List Author) (hlen : l1.length = l2.length)
    (h0 : l1[0]! = l2[0]!) (h1 : l1[1]! = l2[1]!)
    (hlast : l1[l1.length - 1]! = l2[l2.length - 1]!) :
    prepareAuthorLine l1 = prepareAuthorLine l2 := by
  unfold prepareAuthorLine
  rw [hlen] at hlast ⊢
  rw [h0, h1, hlast]

/-- Witness for C10: two five-author lists that differ in their third
and fourth entries produce the same author line. -/
theorem prepareAuthorLine_depends_only_on_ends_witness :
    prepareAuthorLine
      [{ givenNames := some ["A"], familyNames := none },
       { givenNames := some ["B"], familyNames := none },
       { givenNames := some ["C"], familyNames := none },
       { givenNames := some ["D"], familyNames := none },
       { givenNames := some ["E"], familyNames := none }] =
    prepareAuthorLine
      [{ givenNames := some ["A"], familyNames := none },
       { givenNames := some ["B"], familyNames := none },
       { givenNames := some ["X"], familyNames := none },
       { givenNames := some ["Y"], familyNames := none },
       { givenNames := some ["E"], familyNames := none }] :=
  prepareAuthorLine_depends_only_on_ends _ _ (by decide) (by decide) (by decide) (by decide)

/-- A concrete timestamp: 2023-05-01T12:30:45.678Z. -/
def sampleDate : JSDate :=
  { utcFullYear := 2023, utcMonth := 4, utcDate := 1,
    utcHours := 12, utcMinutes := 30, utcSeconds := 45, utcMilliseconds := 678 }

/-- A concrete timestamp: 2023-01-15T08:00:00.000Z. -/
def sampleFirstPublished : JSDate :=
  { utcFullYear := 2023, utcMonth := 0, utcDate := 15,
    utcHours := 8, utcMinutes := 0, utcSeconds := 0, utcMilliseconds := 0 }

/-- A concrete upstream record with a non-null published timestamp. -/
def sampleRecord : EnhancedArticleNoContent :=
  { msid := "85111"
    preprintDoi := "10.1101/2022.06.24.497502"
    pdfUrl := some "reviewed-preprints/85111.pdf"
    article := { title := Content.text "Sample title", authors := none }
    published := some sampleDate
    subjects := some ["Neuroscience"]
    firstPublished := sampleFirstPublished }

/-- Claim C6: for a record with a non-null published timestamp, the
snippet's `published` and `reviewedDate` both normalize
`firstPublished`, its `versionDate` and `statusDate` both normalize
`published`, its id is the manuscript id, its doi the preprint DOI, and
its status and stage are the constants `reviewed` and `published`. -/
theorem enhancedArticleNoContentToSnippet_fields
    (r : EnhancedArticleNoContent) (d : JSDate) (h : r.published = some d) :
    (enhancedArticleNoContentToSnippet r).published =
        toIsoStringWithoutMilliseconds r.firstPublished ∧
    (enhancedArticleNoContentToSnippet r).reviewedDate =
        toIsoStringWithoutMilliseconds r.firstPublished ∧
    (enhancedArticleNoContentToSnippet r).versionDate = toIsoStringWithoutMilliseconds d ∧
    (enhancedArticleNoContentToSnippet r).statusDate = toIsoStringWithoutMilliseconds d ∧
    (enhancedArticleNoContentToSnippet r).id = r.msid ∧
    (enhancedArticleNoContentToSnippet r).doi = r.preprintDoi ∧
    (enhancedArticleNoContentToSnippet r).status = "reviewed" ∧
    (enhancedArticleNoContentToSnippet r).stage = "published" := by
  simp [enhancedArticleNoContentToSnippet, h]

/-- Witness for C6: the field equations at a concrete record whose
published timestamp is non-null. -/
theorem enhancedArticleNoContentToSnippet_fields_witness :
    sampleRecord.published = some sampleDate ∧
    ((enhancedArticleNoContentToSnippet sampleRecord).published =
        toIsoStringWithoutMilliseconds sampleRecord.firstPublished ∧
     (enhancedArticleNoContentToSnippet sampleRecord).reviewedDate =
        toIsoStringWithoutMilliseconds sampleRecord.firstPublished ∧
     (enhancedArticleNoContentToSnippet sampleRecord).versionDate =
        toIsoStringWithoutMilliseconds sampleDate ∧
     (enhancedArticleNoContentToSnippet sampleRecord).statusDate =
        toIsoStringWithoutMilliseconds sampleDate ∧
     (enhancedArticleNoContentToSnippet sampleRecord).id = sampleRecord.msid ∧
     (enhancedArticleNoContentToSnippet sampleRecord).doi = sampleRecord.preprintDoi ∧
     (enhancedArticleNoContentToSnippet sampleRecord).status = "reviewed" ∧
     (enhancedArticleNoContentToSnippet sampleRecord).stage = "published") :=
  ⟨rfl, enhancedArticleNoContentToSnippet_fields sampleRecord sampleDate rfl⟩

/-- Counterexample to C8 as stated: with the `x-total-count` header
present but not parseable as an integer, the code's total is NaN, not
the number of items actually returned (here 2). -/
theorem fetchVersionsNoContentTotal_unparseable_header :
    fetchVersionsNoContentTotal (some "unknown") [sampleRecord, sampleRecord] = JSNum.nan ∧
    JSNum.nan ≠ JSNum.fin 2 := by
  exact ⟨by decide, by decide⟩

/-- Claim C8 (amended): the total is `parseInt` of the `x-total-count`
header whenever that header is present and non-empty — NaN when it does
not parse, with no fallback — and the number of returned items exactly
when the header is absent or empty. -/
theorem fetchVersionsNoContentTotal_spec :
    (∀ items : List EnhancedArticleNoContent,
      fetchVersionsNoContentTotal none items = JSNum.fin (items.length : ℚ)) ∧
    (∀ items : List EnhancedArticleNoContent,
      fetchVersionsNoContentTotal (some "") items = JSNum.fin (items.length : ℚ)) ∧
    (∀ (h : String) (items : List EnhancedArticleNoContent) (n : ℚ), h ≠ "" →
      jsParseInt h = JSNum.fin n →
      fetchVersionsNoContentTotal (some h) items = JSNum.fin n) := by
  refine ⟨fun items => rfl, fun items => by simp [fetchVersionsNoContentTotal],
    fun h items n hne hp => ?_⟩
  simp [fetchVersionsNoContentTotal, hne, hp]

/-- Witness for C8's amended claim: a present, parseable header value of
`50` gives total 50 even with an empty item list. -/
theorem fetchVersionsNoContentTotal_spec_witness :
    ("50" : String) ≠ "" ∧ jsParseInt "50" = JSNum.fin 50 ∧
    fetchVersionsNoContentTotal (some "50") [] = JSNum.fin 50 :=
  ⟨by decide, by decide,
    fetchVersionsNoContentTotal_spec.2.2 "50" [] 50 (by decide) (by decide)⟩

/-- Claim C3 is a code bug: the upstream `end-date` is built by setting
the day-of-month of the CURRENT date to the parameter's day plus one, so
the parameter's year and month are discarded.  With the server clock on
2026-10-12, the parameter `2023-05-01` is encoded as `2026-10-02`, not
the one-day shift `2023-05-02` the parameter's meaning requires. -/
theorem endDateUpstreamValue_uses_current_year_month :
    endDateUpstreamValue { year := 2026, month := 10, day := 12 } "2023-05-01" =
      "2026-10-02" ∧
    ("2026-10-02" : String) ≠ "2023-05-02" := by
  exact ⟨by decide, by decide⟩

/-- Whether a string is exactly two decimal digit characters. -/
def isTwoDigitChars (s : String) : Bool :=
  match s.toList with
  | [a, b] => a.isDigit && b.isDigit
  | _ => false

/-- Whether a string is exactly four decimal digit characters. -/
def isFourDigitChars (s : String) : Bool :=
  match s.toList with
  | [a, b, c, d] => a.isDigit && b.isDigit && c.isDigit && d.isDigit
  | _ => false

/-- Whether a string has the exact shape `YYYY-MM-DDTHH:MM:SSZ`: twenty
characters, decimal digits in the numeric positions, literal separators,
and a trailing literal `Z`. -/
def isIsoSecondShape (s : String) : Bool :=
  match s.toList with
  | [y1, y2, y3, y4, c1, m1, m2, c2, d1, d2, c3, h1, h2, c4, n1, n2, c5, s1, s2, c6] =>
    y1.isDigit && y2.isDigit && y3.isDigit && y4.isDigit &&
    c1 == '-' && m1.isDigit && m2.isDigit && c2 == '-' &&
    d1.isDigit && d2.isDigit && c3 == 'T' &&
    h1.isDigit && h2.isDigit && c4 == ':' && n1.isDigit && n2.isDigit && c5 == ':' &&
    s1.isDigit && s2.isDigit && c6 == 'Z'
  | _ => false

/-- Helper: zero-padding a number below 100 to width two yields exactly
two digit characters. -/
theorem pad2_two_digits :
    ∀ n : Nat, n < 100 → isTwoDigitChars (padStart (Nat.repr n) 2 '0') = true := by decide

set_option maxHeartbeats 4000000 in
/-- Helper: the decimal representation of `(a+1)·1000 + b·100 + c·10 + d`
is four digit characters, for each digit choice. -/
theorem repr_four_digits_aux : ∀ a < 9, ∀ b < 10, ∀ c < 10, ∀ d < 10,
    isFourDigitChars (Nat.repr ((a + 1) * 1000 + b * 100 + c * 10 + d)) = true := by decide

/-- Helper: a number between 1000 and 9999 prints as four digits. -/
theorem repr_four_digits (n : Nat) (h1 : 1000 ≤ n) (h2 : n < 10000) :
    isFourDigitChars (Nat.repr n) = true := by
  have e : n = (n / 1000 - 1 + 1) * 1000 + n % 1000 / 100 * 100 + n % 100 / 10 * 10 + n % 10 := by
    omega
  rw [e]
  exact repr_four_digits_aux (n / 1000 - 1) (by omega) (n % 1000 / 100) (by omega)
    (n % 100 / 10) (by omega) (n % 10) (by omega)

theorem isTwoDigitChars_exists (s : String) (h : isTwoDigitChars s = true) :
    ∃ a b, s.toList = [a, b] ∧ a.isDigit ∧ b.isDigit := by
  unfold isTwoDigitChars at h
  split at h
  case _ a b heq => exact ⟨a, b, heq, by simpa using h⟩
  case _ => exact absurd h (by simp)

theorem isFourDigitChars_exists (s : String) (h : isFourDigitChars s = true) :
    ∃ a b c d, s.toList = [a, b, c, d] ∧ a.isDigit ∧ b.isDigit ∧ c.isDigit ∧ d.isDigit := by
  unfold isFourDigitChars at h
  split at h
  case _ a b c d heq =>
    refine ⟨a, b, c, d, heq, ?_⟩
    simpa [and_assoc] using h
  case _ => exact absurd h (by simp)

/-- Helper: gluing four digits, three two-digit groups and the literal
separators in the normalizer's order yields the `YYYY-MM-DDTHH:MM:SSZ`
shape. -/
theorem iso_shape_of_parts (y mo dd hh mi se : String)
    (hy : isFourDigitChars y = true) (hmo : isTwoDigitChars mo = true)
    (hdd : isTwoDigitChars dd = true) (hhh : isTwoDigitChars hh = true)
    (hmi : isTwoDigitChars mi = true) (hse : isTwoDigitChars se = true) :
    isIsoSecondShape
      (y ++ "-" ++ mo ++ "-" ++ dd ++ "T" ++ hh ++ ":" ++ mi ++ ":" ++ se ++ "Z") = true := by
  obtain ⟨a1, a2, a3, a4, ey, d1, d2, d3, d4⟩ := isFourDigitChars_exists y hy
  obtain ⟨b1, b2, emo, e1, e2⟩ := isTwoDigitChars_exists mo hmo
  obtain ⟨c1, c2, edd, f1, f2⟩ := isTwoDigitChars_exists dd hdd
  obtain ⟨g1, g2, ehh, k1, k2⟩ := isTwoDigitChars_exists hh hhh
  obtain ⟨p1, p2, emi, q1, q2⟩ := isTwoDigitChars_exists mi hmi
  obtain ⟨r1, r2, ese, t1, t2⟩ := isTwoDigitChars_exists se hse
  unfold isIsoSecondShape
  have ey2 : y.data = [a1, a2, a3, a4] := ey
  have emo2 : mo.data = [b1, b2] := emo
  have edd2 : dd.data = [c1, c2] := edd
  have ehh2 : hh.data = [g1, g2] := ehh
  have emi2 : mi.data = [p1, p2] := emi
  have ese2 : se.data = [r1, r2] := ese
  have : (y ++ "-" ++ mo ++ "-" ++ dd ++ "T" ++ hh ++ ":" ++ mi ++ ":" ++ se ++ "Z").toList =
      [a1, a2, a3, a4, '-', b1, b2, '-', c1, c2, 'T', g1, g2, ':', p1, p2, ':', r1, r2, 'Z'] := by
    simp [String.toList, String.data_append, ey2, emo2, edd2, ehh2, emi2, ese2]
  rw [this]
  simp [d1, d2, d3, d4, e1, e2, f1, f2, k1, k2, q1, q2, t1, t2]

/-- Claim C7 (amended): for every timestamp whose UTC year lies between
1000 and 9999, the normalizer's output has the exact shape
`YYYY-MM-DDTHH:MM:SSZ` — month, day, hours, minutes and seconds
zero-padded to two digits, a trailing literal `Z` — and the sub-second
component is always truncated: the output never depends on it.  (The
year itself is interpolated without padding, so years below 1000 break
the four-digit shape; see the counterexample.) -/
theorem toIsoStringWithoutMilliseconds_shape (d : JSDate)
    (hy1 : 1000 ≤ d.utcFullYear) (hy2 : d.utcFullYear ≤ 9999)
    (hm : d.utcMonth ≤ 11) (hd2 : d.utcDate ≤ 31)
    (hh : d.utcHours ≤ 23) (hmi : d.utcMinutes ≤ 59) (hs : d.utcSeconds ≤ 59) :
    isIsoSecondShape (toIsoStringWithoutMilliseconds d) = true ∧
    (∀ ms : Nat, toIsoStringWithoutMilliseconds { d with utcMilliseconds := ms } =
      toIsoStringWithoutMilliseconds d) := by
  constructor
  · obtain ⟨n, hn⟩ := Int.eq_ofNat_of_zero_le (by omega : (0 : Int) ≤ d.utcFullYear)
    have hrepr : Int.repr d.utcFullYear = Nat.repr n := by rw [hn]; rfl
    have hn1 : 1000 ≤ n := by omega
    have hn2 : n < 10000 := by omega
    unfold toIsoStringWithoutMilliseconds
    rw [hrepr]
    exact iso_shape_of_parts _ _ _ _ _ _
      (repr_four_digits n hn1 hn2)
      (pad2_two_digits (d.utcMonth + 1) (by omega))
      (pad2_two_digits d.utcDate (by omega))
      (pad2_two_digits d.utcHours (by omega))
      (pad2_two_digits d.utcMinutes (by omega))
      (pad2_two_digits d.utcSeconds (by omega))
  · intro ms
    rfl

/-- Counterexample to C7 as stated: for a timestamp in the year 999 the
normalizer emits a three-character year, so the output does not have the
exact `YYYY-MM-DDTHH:MM:SSZ` shape. -/
theorem toIsoStringWithoutMilliseconds_year_999 :
    toIsoStringWithoutMilliseconds
      { utcFullYear := 999, utcMonth := 4, utcDate := 1,
        utcHours := 12, utcMinutes := 30, utcSeconds := 45, utcMilliseconds := 678 } =
      "999-05-01T12:30:45Z" ∧
    isIsoSecondShape "999-05-01T12:30:45Z" = false := by
  exact ⟨by decide, by decide⟩

/-- Witness for C7's amended claim at the concrete timestamp
2023-05-01T12:30:45.678Z. -/
theorem toIsoStringWithoutMilliseconds_shape_witness :
    isIsoSecondShape (toIsoStringWithoutMilliseconds sampleDate) = true ∧
    toIsoStringWithoutMilliseconds { sampleDate with utcMilliseconds := 0 } =
      toIsoStringWithoutMilliseconds sampleDate :=
  ⟨(toIsoStringWithoutMilliseconds_shape sampleDate (by decide) (by decide) (by decide)
      (by decide) (by decide) (by decide) (by decide)).1,
   (toIsoStringWithoutMilliseconds_shape sampleDate (by decide) (by decide) (by decide)
      (by decide) (by decide) (by decide) (by decide)).2 0⟩

/-- One validation step of the handler: `if (cond) { errorBadRequest(res, msg) }`. -/
def applyCheck (cond : Bool) (msg : String) (res : Res) : Res :=
  if cond then errorBadRequest res msg else res

/-- The handler's validation sequence as a fold of `applyCheck` steps. -/
def runChecks : List (Bool × String) → Res → Res
  | [], res => res
  | (c, m) :: rest, res => runChecks rest (applyCheck c m res)

/-- The message of the first failing check of a check list. -/
def firstFailing : List (Bool × String) → Option String
  | [] => none
  | (c, m) :: rest => if c then some m else firstFailing rest

/-- The six checks of the list endpoint, in source order; `listEndpoint`
is definitionally `writeResponse` of `runChecks` over this list. -/
def validationChecks (q : ListQuery) : List (Bool × String) :=
  [(jsLeZero (pageNumber q), pageErrorMessage),
   (jsLeZero (perPageNumber q) || jsGtHundred (perPageNumber q), perPageErrorMessage),
   (!(orderParam q == "asc" || orderParam q == "desc"), orderErrorMessage),
   (!(useDateParam q == "default" || useDateParam q == "published"), useDateErrorMessage),
   (startDateParam q != "" && !momentValidYMD (startDateParam q), startDateErrorMessage),
   (endDateParam q != "" && !momentValidYMD (endDateParam q), endDateErrorMessage)]

/-- The response state after a 400 problem write on a fresh response. -/
def problemResponse (m : String) : Res :=
  { headersSent := true, statusCode := 400, contentType := "application/problem+json",
    cacheControl := cacheControlFor 400, vary := ["Accept", "Authorization"],
    body := some (ResponseMessage.problem "bad request" (some m)) }

/-- The response state after the 200 list write on a fresh response. -/
def listOkResponse (t : JSNum) (items : List EnhancedArticleNoContent) : Res :=
  { headersSent := true, statusCode := 200,
    contentType := "application/vnd.elife.reviewed-preprint-list+json; version=1",
    cacheControl := cacheControlFor 200, vary := ["Accept", "Authorization"],
    body := some (ResponseMessage.list t (items.map enhancedArticleNoContentToSnippet)) }

/-- Helper: `writeResponse` is a no-op once headers are sent. -/
theorem writeResponse_of_sent (res : Res) (ct : String) (code : Nat) (m : ResponseMessage)
    (h : res.headersSent = true) : writeResponse res ct code m = res := by
  simp [writeResponse, h]

/-- Helper: `writeResponse` on an unsent response writes everything. -/
theorem writeResponse_of_unsent (res : Res) (ct : String) (code : Nat) (m : ResponseMessage)
    (h : res.headersSent = false) :
    writeResponse res ct code m =
      { headersSent := true, statusCode := code, contentType := ct,
        cacheControl := cacheControlFor code, vary := ["Accept", "Authorization"],
        body := some m } := by
  simp [writeResponse, h]

/-- Helper: a validation step never alters a sent response. -/
theorem applyCheck_of_sent (c : Bool) (m : String) (res : Res) (h : res.headersSent = true) :
    applyCheck c m res = res := by
  cases c <;> simp [applyCheck, errorBadRequest, writeResponse, h]

/-- Helper: the whole validation sequence never alters a sent response. -/
theorem runChecks_of_sent (l : List (Bool × String)) (res : Res) (h : res.headersSent = true) :
    runChecks l res = res := by
  induction l generalizing res with
  | nil => rfl
  | cons p rest ih =>
    obtain ⟨c, m⟩ := p
    show runChecks rest (applyCheck c m res) = res
    rw [applyCheck_of_sent c m res h]
    exact ih res h

/-- Helper: on an unsent response the validation sequence produces the
problem response of its FIRST failing check, and leaves the response
untouched when every check passes. -/
theorem runChecks_spec (l : List (Bool × String)) (res : Res) (h : res.headersSent = false) :
    (∀ m, firstFailing l = some m → runChecks l res = problemResponse m) ∧
    (firstFailing l = none → runChecks l res = res) := by
  induction l generalizing res with
  | nil =>
    exact ⟨fun m hm => by simp [firstFailing] at hm, fun _ => rfl⟩
  | cons p rest ih =>
    obtain ⟨c, m0⟩ := p
    cases c with
    | true =>
      refine ⟨fun m hm => ?_, fun hn => ?_⟩
      · have hm0 : m0 = m := by simpa [firstFailing] using hm
        subst hm0
        show runChecks rest (applyCheck true m0 res) = problemResponse m0
        have e : applyCheck true m0 res = problemResponse m0 := by
          simp [applyCheck, errorBadRequest, writeResponse, h, problemResponse]
        rw [e]
        exact runChecks_of_sent rest _ rfl
      · simp [firstFailing] at hn
    | false =>
      refine ⟨fun m hm => ?_, fun hn => ?_⟩
      · have hm2 : firstFailing rest = some m := by simpa [firstFailing] using hm
        show runChecks rest (applyCheck false m0 res) = problemResponse m
        exact (ih res h).1 m hm2
      · have hn2 : firstFailing rest = none := by simpa [firstFailing] using hn
        show runChecks rest (applyCheck false m0 res) = res
        exact (ih res h).2 hn2

/-- Helper: the list endpoint's response is the 400 problem response of
the first failing validation check, or the 200 list response when all
six checks pass. -/
theorem listEndpoint_by_first_error (q : ListQuery) (t : JSNum)
    (items : List EnhancedArticleNoContent) (res : Res) (hres : res.headersSent = false) :
    (∀ m, firstValidationError q = some m → listEndpoint q t items res = problemResponse m) ∧
    (firstValidationError q = none → listEndpoint q t items res = listOkResponse t items) := by
  have e1 : listEndpoint q t items res =
      writeResponse (runChecks (validationChecks q) res)
        "application/vnd.elife.reviewed-preprint-list+json; version=1" 200
        (ResponseMessage.list t (items.map enhancedArticleNoContentToSnippet)) := rfl
  have e2 : firstValidationError q = firstFailing (validationChecks q) := rfl
  constructor
  · intro m hm
    rw [e1, (runChecks_spec (validationChecks q) res hres).1 m (e2 ▸ hm)]
    exact writeResponse_of_sent _ _ _ _ rfl
  · intro hn
    rw [e1, (runChecks_spec (validationChecks q) res hres).2 (e2 ▸ hn)]
    exact writeResponse_of_unsent _ _ _ _ hres

/-- Claim C4 (amended): all six validation checks are evaluated in the
fixed order page, per-page, order, use-date, start-date, end-date with
no early return, but because `writeResponse` ignores writes once
headers are sent, the 400 problem response that actually lands is the
one produced by the FIRST failing check, not the last. -/
theorem listEndpoint_first_failing_check_lands (q : ListQuery) (t : JSNum)
    (items : List EnhancedArticleNoContent) (res : Res) (m : String)
    (hres : res.headersSent = false) (hm : firstValidationError q = some m) :
    listEndpoint q t items res = problemResponse m :=
  (listEndpoint_by_first_error q t items res hres).1 m hm

/-- Counterexample to C4 as stated: with both the page and the per-page
checks failing, the response sent carries the page message (the first
failing check), not the per-page message (the last failing check). -/
theorem listEndpoint_not_last_failing_check :
    (listEndpoint { page := some "0", perPage := some "101" } (JSNum.fin 0) [] initialRes).body =
      some (ResponseMessage.problem "bad request" (some pageErrorMessage)) ∧
    (listEndpoint { page := some "0", perPage := some "101" } (JSNum.fin 0) [] initialRes).body ≠
      some (ResponseMessage.problem "bad request" (some perPageErrorMessage)) := by
  exact ⟨by decide, by decide⟩

/-- Witness for C4's amended claim: a request failing both the page and
per-page checks lands the page problem response. -/
theorem listEndpoint_first_failing_check_lands_witness :
    firstValidationError { page := some "0", perPage := some "101" } = some pageErrorMessage ∧
    listEndpoint { page := some "0", perPage := some "101" } (JSNum.fin 0) [] initialRes =
      problemResponse pageErrorMessage :=
  ⟨by decide, listEndpoint_first_failing_check_lands _ _ _ _ _ rfl (by decide)⟩

/-- Claim C9: once headers are sent, every later `writeResponse` call
leaves the response state (status, headers, body) unchanged, so each
request carries at most one response — the first write wins — and in
particular after a validation failure the handler's final 200 list
write is suppressed: the response stays a 400 problem response. -/
theorem writeResponse_at_most_once :
    (∀ (res : Res) (ct : String) (code : Nat) (msg : ResponseMessage),
      res.headersSent = true → writeResponse res ct code msg = res) ∧
    (∀ (q : ListQuery) (t : JSNum) (items : List EnhancedArticleNoContent) (res : Res)
      (m : String), res.headersSent = false → firstValidationError q = some m →
      (listEndpoint q t items res).statusCode = 400 ∧
      (listEndpoint q t items res).headersSent = true ∧
      (listEndpoint q t items res).body =
        some (ResponseMessage.problem "bad request" (some m))) := by
  refine ⟨writeResponse_of_sent, fun q t items res m hres hm => ?_⟩
  rw [(listEndpoint_by_first_error q t items res hres).1 m hm]
  exact ⟨rfl, rfl, rfl⟩

/-- Witness for C9: a later 404 write on an already-sent response is a
no-op, and a request with `page=0` ends with status 400, not 200. -/
theorem writeResponse_at_most_once_witness :
    writeResponse (problemResponse pageErrorMessage) "application/json" 404
      (ResponseMessage.problem "not found" none) = problemResponse pageErrorMessage ∧
    (listEndpoint { page := some "0" } (JSNum.fin 0) [] initialRes).statusCode = 400 :=
  ⟨writeResponse_at_most_once.1 (problemResponse pageErrorMessage) "application/json" 404
      (ResponseMessage.problem "not found" none) rfl,
   (writeResponse_at_most_once.2 { page := some "0" } (JSNum.fin 0) [] initialRes
      pageErrorMessage rfl (by decide)).1⟩

/-- Counterexample to C5 as stated: the non-numeric `page=abc` converts
to NaN, NaN passes the integer round-trip test and `NaN <= 0` is false,
so no 400 is written — the request succeeds with a 200 list response. -/
theorem listEndpoint_non_numeric_page_passes :
    (listEndpoint { page := some "abc" } (JSNum.fin 0) [] initialRes).statusCode = 200 ∧
    (listEndpoint { page := some "abc" } (JSNum.fin 0) [] initialRes).body =
      some (ResponseMessage.list (JSNum.fin 0) []) := by
  exact ⟨by decide, by decide⟩

/-- Claim C5 (amended): a present `page` value whose number conversion
is not NaN and is not a positive integer (below 10^21) yields a 400
problem response with exactly the page message; an absent `page`
defaults to 1 and the request (with otherwise default parameters)
succeeds.  A value converting to NaN escapes the check (see the
counterexample). -/
theorem page_param_validation :
    (∀ (q : ListQuery) (t : JSNum) (items : List EnhancedArticleNoContent) (res : Res)
      (s : String), res.headersSent = false → q.page = some s →
      jsStringToNumber s ≠ JSNum.nan →
      (∀ r : ℚ, jsStringToNumber s = JSNum.fin r →
        ¬(0 < r ∧ r.den = 1 ∧ r.num.natAbs < 10 ^ 21)) →
      listEndpoint q t items res = problemResponse pageErrorMessage) ∧
    (∀ (t : JSNum) (items : List EnhancedArticleNoContent) (res : Res),
      res.headersSent = false →
      listEndpoint {} t items res = listOkResponse t items) := by
  constructor
  · intro q t items res s hres hpage hnan hno
    have hfail : jsLeZero (pageNumber q) = true := by
      unfold pageNumber
      rw [hpage]
      show jsLeZero (intCheckedParam (jsStringToNumber s)) = true
      cases hn : jsStringToNumber s with
      | nan => exact absurd hn hnan
      | posInf => decide
      | negInf => decide
      | fin r =>
        specialize hno r hn
        by_cases hd : r.den = 1
        · by_cases habs : r.num.natAbs < 10 ^ 21
          · have hr0 : r ≤ 0 := by
              by_contra hpos
              push_neg at hpos
              exact hno ⟨hpos, hd, habs⟩
            have hrt : numberRoundTripsAsInt (JSNum.fin r) = true := by
              simp only [numberRoundTripsAsInt, hd, beq_self_eq_true, Bool.true_and,
                decide_eq_true_eq]
              simpa using habs
            simp only [intCheckedParam, hrt, if_true]
            simp [jsLeZero, hr0]
          · have hrt : numberRoundTripsAsInt (JSNum.fin r) = false := by
              simp only [numberRoundTripsAsInt, Bool.and_eq_false_iff]
              right
              simpa using habs
            simp only [intCheckedParam, hrt, Bool.false_eq_true, if_false]
            decide
        · have hrt : numberRoundTripsAsInt (JSNum.fin r) = false := by
            simp [numberRoundTripsAsInt, hd]
          simp only [intCheckedParam, hrt, Bool.false_eq_true, if_false]
          decide
    have hfe : firstValidationError q = some pageErrorMessage := by
      unfold firstValidationError
      simp [hfail]
    exact (listEndpoint_by_first_error q t items res hres).1 _ hfe
  · intro t items res hres
    exact (listEndpoint_by_first_error {} t items res hres).2 (by decide)

/-- Witness for C5's amended claim: `page=1.5` (finite, non-integer)
lands the 400 page problem response. -/
theorem page_param_validation_witness :
    jsStringToNumber "1.5" ≠ JSNum.nan ∧
    listEndpoint { page := some "1.5" } (JSNum.fin 0) [] initialRes =
      problemResponse pageErrorMessage :=
  ⟨by decide,
   page_param_validation.1 { page := some "1.5" } (JSNum.fin 0) [] initialRes "1.5" rfl rfl
     (by decide)
     (fun r hr => by
       rw [show jsStringToNumber "1.5" = JSNum.fin (mkRat 3 2) from by decide] at hr
       injection hr with h
       rw [← h]
       decide)⟩
